import Mathlib

/-!
Verification of the Background-Music-Processor repository's core pipeline
(feature extraction, parameter decision, filter-graph assembly, two-phase
execution) against its natural-language specification.

The four Python tools are shallowly embedded below:
* `prof_*`  — 星TAP专业配音稳定版 v3.3 (`ProfessionalVocalProcessor`)
* `bg27_*`  — 背景音乐动态压缩2.7广播级 (`BackgroundMusicProcessor`)
* `voc20_*` — 星TAP人声自动增强2.0 (`VocalProcessor`)
* `sc25_*`  — 背景音乐动态压缩2.5智能压缩 (`SmartCompressor`)

Python floats are embedded as `ℚ`, Python ints as `ℤ`.  Constant-folded
f-string fragments (for example `f"I={TARGET_LUFS}"` with `TARGET_LUFS =
-16.0`) are written as the string literal they evaluate to, with the constant
noted in a comment.  Runtime numeric values are formatted by `pyStr`, which
matches CPython float formatting on the one-decimal-digit values that occur
in these chains and is otherwise a stand-in (no stated property depends on
the textual form of a formatted number).
-/

/-- Rendering of a rational as Python renders the corresponding float, for
values whose denominator divides 10 (all chain parameters in this program are
such values: sliders stepped by 0.5/0.6, ratios 2.0/3.0, targets -16.0). -/
def pyStr (q : ℚ) : String :=
  if 10 % q.den = 0 then
    let n : ℤ := q.num * ((10 : ℤ) / (q.den : ℤ))
    (if n < 0 then "-" else "") ++ toString (n.natAbs / 10) ++ "." ++ toString (n.natAbs % 10)
  else
    toString q

/-- Python's two-argument `min` (returns the first argument among equals),
written as a decidable conditional so that it evaluates in the kernel. -/
def pyMinQ (a b : ℚ) : ℚ := if a ≤ b then a else b

/-- Python's two-argument `max` (returns the first argument among equals). -/
def pyMaxQ (a b : ℚ) : ℚ := if a ≥ b then a else b

/-- Python's two-argument `min` on ints. -/
def pyMinI (a b : ℤ) : ℤ := if a ≤ b then a else b

/-- Python's two-argument `max` on ints. -/
def pyMaxI (a b : ℤ) : ℤ := if a ≥ b then a else b

theorem pyMinQ_le_right (a b : ℚ) : pyMinQ a b ≤ b := by
  unfold pyMinQ; split_ifs with h
  · exact h
  · exact le_rfl

theorem le_pyMinQ {c a b : ℚ} (h₁ : c ≤ a) (h₂ : c ≤ b) : c ≤ pyMinQ a b := by
  unfold pyMinQ; split_ifs <;> assumption

theorem pyMinQ_mono_left {a₁ a₂ b : ℚ} (h : a₁ ≤ a₂) : pyMinQ a₁ b ≤ pyMinQ a₂ b := by
  unfold pyMinQ; split_ifs <;> linarith

/-- Python's `",".join(l)`. -/
def joinComma : List String → String
  | [] => ""
  | [x] => x
  | x :: y :: ys => x ++ "," ++ joinComma (y :: ys)

/-- Python's `s.replace(c, "")` for a one-character pattern `c`: every
occurrence of the character is removed. -/
def pyRemoveChar (c : Char) (s : String) : String :=
  ⟨s.data.filter (fun a => a ≠ c)⟩

/-- The final sanitation step shared by the three chain builders:
`.replace("\n", "").replace(" ", "")`. -/
def pySanitize (s : String) : String :=
  pyRemoveChar ' ' (pyRemoveChar '\n' s)

theorem pySanitize_no_ws (s : String) :
    ∀ c ∈ (pySanitize s).data, c ≠ ' ' ∧ c ≠ '\n' := by
  intro c hc
  simp only [pySanitize, pyRemoveChar, List.mem_filter, decide_eq_true_eq] at hc
  exact ⟨hc.2, hc.1.2⟩

theorem filter_keeps_inf {l₁ l₂ : List Char} (p : Char → Bool) (h : l₁ <:+: l₂) :
    l₁.filter p <:+: l₂.filter p := by
  obtain ⟨s, t, rfl⟩ := h
  exact ⟨s.filter p, t.filter p, by simp [List.filter_append]⟩

theorem joinComma_inf : ∀ {l : List String} {x : String},
    x ∈ l → x.data <:+: (joinComma l).data := by
  intro l
  induction l with
  | nil => intro x h; cases h
  | cons a as ih =>
    intro x h
    rcases List.mem_cons.mp h with rfl | h
    · cases as with
      | nil => exact ⟨[], [], by simp [joinComma]⟩
      | cons b bs =>
        refine ⟨[], ("," ++ joinComma (b :: bs)).data, ?_⟩
        simp [joinComma, String.data_append]
    · cases as with
      | nil => cases h
      | cons b bs =>
        obtain ⟨s, t, hst⟩ := ih h
        refine ⟨(a ++ ",").data ++ s, t, ?_⟩
        simp only [joinComma, String.data_append, List.append_assoc]
        rw [← List.append_assoc s, hst]

/-- An element of the filter list survives, sanitized, as a contiguous block
of the sanitized comma-joined chain. -/
theorem sanitize_join_inf {x : String} {l : List String} (h : x ∈ l) :
    (pySanitize x).data <:+: (pySanitize (joinComma l)).data :=
  filter_keeps_inf _ (filter_keeps_inf _ (joinComma_inf h))

theorem mem_str_append_left {c : Char} {s₁ : String} (s₂ : String) (h : c ∈ s₁.data) :
    c ∈ (s₁ ++ s₂).data := by
  rw [String.data_append]
  exact List.mem_append_left _ h

theorem mem_str_append_right {c : Char} (s₁ : String) {s₂ : String} (h : c ∈ s₂.data) :
    c ∈ (s₁ ++ s₂).data := by
  rw [String.data_append]
  exact List.mem_append_right _ h

/-- Sanitizing a right factor of an append yields a suffix — hence an infix —
of the sanitized whole. -/
theorem sanitize_suffix_inf (s₁ s₂ : String) :
    (pySanitize s₂).data <:+: (pySanitize (s₁ ++ s₂)).data :=
  ⟨(pySanitize s₁).data, [],
    by simp [pySanitize, pyRemoveChar, String.data_append, List.filter_append]⟩

/-! ## Professional tool v3.3 (`src/unnamed/part_000`): feature set and quality scorer -/

/-- The analysis dict built by `ProfessionalVocalProcessor.analyze_audio_quality`
(part_000 lines 87-101); default field values are the dict's initializers. -/
structure ProfAnalysis where
  format : String := ""
  is_lossless : Bool := false
  bitrate : ℤ := 192
  sample_rate : ℤ := 44100
  channels : ℤ := 2
  duration : ℚ := 0
  loudness : ℚ := -20
  dynamic_range : ℚ := 12
  noise_floor : ℚ := -60
  gender : String := "unknown"
  high_freq_energy : ℚ := -20
  volume_level : ℚ := 0
  quality_score : ℚ := 0
  deriving DecidableEq, Repr

/-- Format bonus of `calculate_quality_score` (part_000 lines 245-250). -/
def formatBonus (a : ProfAnalysis) : ℚ :=
  if a.is_lossless then 15
  else if a.bitrate ≥ 320 then 10
  else if a.bitrate ≥ 192 then 5
  else 0

/-- Sample-rate bonus (lines 253-254). -/
def sampleRateBonus (a : ProfAnalysis) : ℚ :=
  if a.sample_rate ≥ 48000 then 5 else 0

/-- Loudness-normalization bonus (lines 257-260). -/
def loudnessBonus (a : ProfAnalysis) : ℚ :=
  if |a.loudness + 16| ≤ 2 then 10
  else if |a.loudness + 16| ≤ 4 then 5
  else 0

/-- Dynamic-range bonus (lines 263-266). -/
def dynamicRangeBonus (d : ℚ) : ℚ :=
  if d ≥ 15 then 10 else if d ≥ 12 then 5 else 0

/-- Noise-floor bonus (lines 269-272). -/
def noiseFloorBonus (a : ProfAnalysis) : ℚ :=
  if a.noise_floor ≤ -55 then 10
  else if a.noise_floor ≤ -45 then 5
  else 0

/-- `ProfessionalVocalProcessor.calculate_quality_score` (lines 239-274):
score starts at 50.0, the five bonuses are added in order, and the result is
`min(score, 100.0)`. -/
def calculate_quality_score (a : ProfAnalysis) : ℚ :=
  pyMinQ (50 + formatBonus a + sampleRateBonus a + loudnessBonus a
        + dynamicRangeBonus a.dynamic_range + noiseFloorBonus a) 100

/-- The additive quality-score formula exactly as the specification words it
(baseline 50; 15 lossless else 10 at ≥320 kbps else 5 at ≥192 kbps; 5 at
≥48 kHz; 10 within 2 dB of -16 LUFS else 5 within 4 dB; 10 at ≥15 dB dynamic
range else 5 at ≥12 dB; 10 at ≤-55 dBFS noise floor else 5 at ≤-45 dBFS;
capped at 100). -/
def qualityScoreSpec (a : ProfAnalysis) : ℚ :=
  pyMinQ ((50 : ℚ)
    + (if a.is_lossless then 15 else if a.bitrate ≥ 320 then 10
       else if a.bitrate ≥ 192 then 5 else 0)
    + (if a.sample_rate ≥ 48000 then 5 else 0)
    + (if |a.loudness - (-16)| ≤ 2 then 10 else if |a.loudness - (-16)| ≤ 4 then 5 else 0)
    + (if a.dynamic_range ≥ 15 then 10 else if a.dynamic_range ≥ 12 then 5 else 0)
    + (if a.noise_floor ≤ -55 then 10 else if a.noise_floor ≤ -45 then 5 else 0)) 100

theorem formatBonus_nonneg (a : ProfAnalysis) : 0 ≤ formatBonus a := by
  unfold formatBonus; split_ifs <;> norm_num

theorem sampleRateBonus_nonneg (a : ProfAnalysis) : 0 ≤ sampleRateBonus a := by
  unfold sampleRateBonus; split_ifs <;> norm_num

theorem loudnessBonus_nonneg (a : ProfAnalysis) : 0 ≤ loudnessBonus a := by
  unfold loudnessBonus; split_ifs <;> norm_num

theorem dynamicRangeBonus_nonneg (d : ℚ) : 0 ≤ dynamicRangeBonus d := by
  unfold dynamicRangeBonus; split_ifs <;> norm_num

theorem noiseFloorBonus_nonneg (a : ProfAnalysis) : 0 ≤ noiseFloorBonus a := by
  unfold noiseFloorBonus; split_ifs <;> norm_num

theorem dynamicRangeBonus_mono {d₁ d₂ : ℚ} (h : d₁ ≤ d₂) :
    dynamicRangeBonus d₁ ≤ dynamicRangeBonus d₂ := by
  unfold dynamicRangeBonus; split_ifs <;> linarith

/-! ## Professional tool v3.3: filter-chain assembly (part_000 lines 276-399) -/

/-- Noise-reduction preset table `nr_map` (part_000 lines 319-323). -/
def prof_nr_map : List (String × String) :=
  [("low", "highpass=f=100,lowpass=f=14000"),
   ("medium", "highpass=f=150,lowpass=f=12000"),
   ("high", "highpass=f=200,lowpass=f=10000")]

/-- Key normalization `{"轻": "low", "中": "medium", "重": "high"}.get(nr, nr)`
(line 324). -/
def prof_nr_key (noise_reduction : String) : String :=
  (([("轻", "low"), ("中", "medium"), ("重", "high")] : List (String × String)).lookup
    noise_reduction).getD noise_reduction

/-- The noise-reduction stage appended first:
`nr_map.get(nr_key, "highpass=f=150,lowpass=f=12000")` (line 325). -/
def prof_nr_stage (noise_reduction : String) : String :=
  ((prof_nr_map.lookup (prof_nr_key noise_reduction)).getD
    "highpass=f=150,lowpass=f=12000")

/-- Preset EQ curves (part_000 lines 330-362). -/
def prof_eq_settings (preset : String) : List String :=
  if preset = "新闻播报" then
    ["equalizer=f=100:g=1.5:w=0.707", "equalizer=f=300:g=-1.0:w=1.0",
     "equalizer=f=1000:g=2.0:w=1.0", "equalizer=f=3000:g=1.5:w=1.0",
     "equalizer=f=6000:g=0.5:w=2.0"]
  else if preset = "纪录片解说" then
    ["equalizer=f=80:g=2.0:w=0.707", "equalizer=f=250:g=1.0:w=1.0",
     "equalizer=f=800:g=1.5:w=1.0", "equalizer=f=2000:g=1.0:w=1.0",
     "equalizer=f=4000:g=0.5:w=1.0"]
  else if preset = "广告配音" then
    ["equalizer=f=120:g=1.5:w=0.707", "equalizer=f=400:g=1.0:w=1.0",
     "equalizer=f=1500:g=2.0:w=1.0", "equalizer=f=4000:g=2.0:w=1.0",
     "equalizer=f=8000:g=1.0:w=2.0"]
  else
    ["equalizer=f=100:g=1.5:w=0.707", "equalizer=f=300:g=-0.5:w=1.0",
     "equalizer=f=1000:g=1.5:w=1.0", "equalizer=f=3000:g=1.0:w=1.0",
     "equalizer=f=6000:g=0.5:w=2.0"]

/-- Clarity band: `clarity_gain = (voice_clarity - 3) * 0.6`,
`f"equalizer=f=2500:g={1.5 + clarity_gain}:w=1.2"` (lines 365-366). -/
def prof_clarity_band (voice_clarity : ℤ) : String :=
  "equalizer=f=2500:g=" ++ pyStr ((3 : ℚ)/2 + ((voice_clarity : ℚ) - 3) * (3/5)) ++ ":w=1.2"

/-- Warmth band: `warmth_gain = (warmth_level - 3) * 0.5`,
`f"equalizer=f=200:g={1.0 + warmth_gain}:w=1.4"` (lines 369-370). -/
def prof_warmth_band (warmth_level : ℤ) : String :=
  "equalizer=f=200:g=" ++ pyStr ((1 : ℚ) + ((warmth_level : ℚ) - 3) * (1/2)) ++ ":w=1.4"

/-- Reverb preset table (part_000 lines 285-291): delays, decays, wet mix. -/
def prof_reverb_presets : List (ℤ × (String × String × String)) :=
  [(1, ("30|55|80|110", "0.20|0.16|0.13|0.10", "0.12")),
   (2, ("25|50|75|100|130", "0.24|0.20|0.16|0.13|0.10", "0.16")),
   (3, ("20|40|60|85|110|140", "0.28|0.24|0.20|0.16|0.13|0.10", "0.20")),
   (4, ("18|36|54|76|98|122|150", "0.32|0.28|0.24|0.20|0.16|0.13|0.10", "0.24")),
   (5, ("16|32|48|68|88|110|135|165", "0.36|0.32|0.28|0.24|0.20|0.16|0.13|0.10", "0.28"))]

/-- `build_gentle_reverb_filter` (lines 276-299): empty for amount 0, else a
parallel dry/wet split serialized from a triple-quoted f-string whose
newlines and indentation are immediately stripped by
`.replace("\n", "").replace(" ", "")`. -/
def build_gentle_reverb_filter (reverb_amount : ℤ) : String :=
  if reverb_amount = 0 then ""
  else
    let params := (prof_reverb_presets.lookup reverb_amount).getD
      ("25|50|75|100|130", "0.24|0.20|0.16|0.13|0.10", "0.16")
    pySanitize ("\n            asplit=2[dry][wet];\n            [wet]aecho=0.6:0.4:"
      ++ params.1 ++ ":" ++ params.2.1
      ++ ",highpass=f=180,lowpass=f=8000,volume=" ++ params.2.2
      ++ "[wet_out];\n            [dry][wet_out]amix=inputs=2:normalize=0\n        ")

/-- Broadcast loudness-control stage (part_000 lines 390-393).  The constants
`TARGET_LUFS = -16.0` and `PEAK_THRESHOLD = -1.0` are folded into the literal
exactly as the f-string renders them; the measured values come from the
analysis dict of the original input. -/
def prof_loudnorm_filter (a : ProfAnalysis) : String :=
  "loudnorm=I=-16.0:LRA=8:TP=-1.0:measured_I=" ++ pyStr a.loudness
    ++ ":measured_LRA=" ++ pyStr a.dynamic_range ++ ":measured_TP=-1.0"

/-- The `filters` list assembled by `build_professional_filter_chain`
(part_000 lines 315-397) before joining: noise reduction, joined EQ,
compressor, tone touch-up, optional reverb, loudness control, limiter. -/
def build_professional_filters (preset : String) (voice_clarity warmth_level reverb_amount : ℤ)
    (noise_reduction : String) (a : ProfAnalysis) : List String :=
  [prof_nr_stage noise_reduction,
   joinComma (prof_eq_settings preset
     ++ [prof_clarity_band voice_clarity, prof_warmth_band warmth_level]),
   "acompressor=threshold=-20dB:ratio=2.0:attack=50:release=500:makeup=2",
   "equalizer=f=2000:g=0.5:w=2.0"]
  ++ (if 0 < reverb_amount then
        (if build_gentle_reverb_filter reverb_amount = "" then []
         else [build_gentle_reverb_filter reverb_amount])
      else [])
  ++ [prof_loudnorm_filter a,
      "alimiter=level_in=1:level_out=1:limit=0.9:attack=0.1:release=5:asc=0"]

/-- `build_professional_filter_chain` (line 399):
`",".join(filters).replace("\n", "").replace(" ", "")`. -/
def build_professional_filter_chain (preset : String)
    (voice_clarity warmth_level reverb_amount : ℤ)
    (noise_reduction : String) (a : ProfAnalysis) : String :=
  pySanitize (joinComma
    (build_professional_filters preset voice_clarity warmth_level reverb_amount
      noise_reduction a))

/-! ## Background-music tool v2.7 (`背景音乐动态压缩2.7广播级.py`) -/

/-- The analysis dict of `BackgroundMusicProcessor.analyze_file` (lines 60-63). -/
structure Bg27Analysis where
  is_lossless : Bool
  ext : String
  bitrate : ℤ
  dynamic_range : ℚ
  loudness : ℚ
  deriving DecidableEq, Repr

/-- Stereo-field preset dict `sound_field_presets` (2.7 lines 119-123). -/
def bg27_sound_field_presets : List (String × String) :=
  [("原声相", "stereo|c0=1.0*c0+0.0*c1|c1=0.0*c0+1.0*c1"),
   ("轻微扩展", "stereo|c0=0.8*c0+0.2*c1|c1=0.2*c0+0.8*c1"),
   ("宽声场", "stereo|c0=0.7*c0+0.3*c1|c1=0.3*c0+0.7*c1")]

/-- The three items the caller's sound-field combo box offers (2.7 line 264). -/
def bg27_combo_items : List String := ["原声相", "轻微扩展", "宽声场"]

/-- Multi-band compression block of 2.7 (lines 113-117), a triple-quoted
f-string with its source indentation; `ratio` is interpolated into the mid
band.  The band mix ends in the spaced weight list `weights=1.1 1.0 0.9`. -/
def bg27_multiband_head : String :=
  "asplit=3[low][mid][high];\n                [low]lowpass=f=300,acompressor=threshold=-24dB:ratio=3.5:attack=50:release=1000[low_out];\n                [mid]highpass=f=300,lowpass=f=3000,acompressor=threshold=-22dB:ratio="

/-- The part of the 2.7 compression block following the interpolated mid-band
ratio, ending in the spaced weight list. -/
def bg27_multiband_tail : String :=
  ":attack=30:release=800[mid_out];\n                [high]highpass=f=3000,acompressor=threshold=-20dB:ratio=2.0:attack=20:release=500[high_out];\n                [low_out][mid_out][high_out]amix=inputs=3:weights=1.1 1.0 0.9"

/-- The assembled 2.7 compression block (lines 113-117). -/
def bg27_multiband (ratio : ℚ) : String :=
  bg27_multiband_head ++ pyStr ratio ++ bg27_multiband_tail

/-- `BackgroundMusicProcessor.build_processing_chain` (2.7 lines 100-126).
The stereo-field stage is a plain dict subscript
`sound_field_presets[sound_field]`: an unknown key raises `KeyError` in
Python, embedded here as `none`.  `NOISE_REDUCTION = -35` is folded into the
first stage's literal.  On success the joined chain is stripped of spaces and
newlines. -/
def bg27_filters (use_compress : Bool) (avoid_vocal : Bool) (a : Bg27Analysis) : List String :=
  ["afftdn=nf=-35:nt=w,highpass=f=50"]
  ++ (if avoid_vocal then
      ["equalizer=f=1500:g=-4:w=2.0,equalizer=f=300:g=1.5:w=1.0,equalizer=f=8000:g=1.5:w=2.0"]
     else
      ["equalizer=f=200:g=1:w=1.0,equalizer=f=5000:g=1:w=2.0"])
  ++ (if use_compress then [bg27_multiband (if a.dynamic_range > 20 then 3 else 2)] else [])

/-- The final joined, stripped chain (2.7 line 126), `none` embedding the
`KeyError` of the stereo-field subscript. -/
def build_processing_chain (use_compress : Bool) (sound_field : String)
    (avoid_vocal : Bool) (a : Bg27Analysis) : Option String :=
  match bg27_sound_field_presets.lookup sound_field with
  | none => none
  | some pan =>
    some (pySanitize (joinComma (bg27_filters use_compress avoid_vocal a ++ ["pan=" ++ pan])))

/-- Output parameters of 2.7 (`get_output_params`, lines 128-136). -/
structure Bg27OutputParams where
  codec : String
  params : String
  ext : String
  loudnorm : String
  deriving DecidableEq, Repr

/-- `BackgroundMusicProcessor.get_output_params` (2.7 lines 128-136).  The
loudnorm string folds `TARGET_LUFS = -16.0`, `LRA = 10`, `PEAK_THRESHOLD =
-1.5` and interpolates the measured loudness from the analysis dict. -/
def bg27_get_output_params (a : Bg27Analysis) : Bg27OutputParams :=
  let ln := "loudnorm=I=-16.0:LRA=10:TP=-1.5:measured_I=" ++ pyStr a.loudness
  if a.is_lossless then
    ⟨"flac", "-compression_level 5", ".flac", ln⟩
  else if a.ext = ".m4a" ∨ a.ext = ".aac" then
    ⟨"aac", "-b:a " ++ toString a.bitrate ++ "k -profile:a aac_low", ".m4a", ln⟩
  else
    ⟨"libmp3lame", "-b:a " ++ toString a.bitrate ++ "k -q:a 2", ".mp3", ln⟩

/-! ## Vocal enhancer v2.0 (`星TAP人声自动增强2.0.py`) -/

/-- The analysis dict of `VocalProcessor.analyze_file` (2.0 lines 114-118);
`input_path` is irrelevant to the decision logic and omitted. -/
structure Voc20Analysis where
  is_lossless : Bool
  ext : String
  bitrate : ℤ
  loudness : ℚ
  dynamic_range : ℚ
  noise_floor : ℚ
  high_freq_energy : ℚ
  deriving DecidableEq, Repr

/-- Base denoise strengths `dn_map = {"low": "-20", "mid": "-30", "high": "-40"}`
followed by `int(...)` (2.0 lines 225-226); the string-to-int parse of the
literals is folded. -/
def voc20_dn_map : List (String × ℤ) := [("low", -20), ("mid", -30), ("high", -40)]

/-- Base strength `int(dn_map.get(denoise_level, "-30"))` (2.0 line 226). -/
def voc20_base_dn (denoise_level : String) : ℤ :=
  (voc20_dn_map.lookup denoise_level).getD (-30)

/-- Final denoise strength after the noise-floor adjustment (2.0 lines
227-233): keep the base above -45 dBFS, relax by 10 below -55 dBFS, relax by
5 in between. -/
def voc20_final_dn (denoise_level : String) (noise_floor : ℚ) : ℤ :=
  let base := voc20_base_dn denoise_level
  if noise_floor > -45 then base
  else if noise_floor < -55 then base + 10
  else base + 5

/-- The denoise stage `f"afftdn=nf={final_dn}:nt=w,highpass=f=80"` (2.0 line
234): strength plus the fixed 80 Hz low-cut. -/
def voc20_denoise_stage (denoise_level : String) (noise_floor : ℚ) : String :=
  "afftdn=nf=" ++ toString (voc20_final_dn denoise_level noise_floor)
    ++ ":nt=w,highpass=f=80"

/-- Scene EQ plus the clarity band (2.0 lines 238-259):
`clarity_gain = (voice_clarity_level - 3) * 0.5`. -/
def voc20_eq_stage (scene_mode : String) (voice_clarity_level : ℤ) : String :=
  joinComma
    ((if scene_mode = "口播清晰档" then
        ["equalizer=f=160:g=2.0:w=1.6", "equalizer=f=1200:g=2.5:w=1.0",
         "equalizer=f=8000:g=2.0:w=2.0"]
      else if scene_mode = "情感饱满档" then
        ["equalizer=f=160:g=3.5:w=1.6", "equalizer=f=1200:g=2.0:w=1.0",
         "equalizer=f=8000:g=2.2:w=2.0"]
      else
        ["equalizer=f=160:g=2.0:w=1.6", "equalizer=f=1200:g=2.0:w=1.0",
         "equalizer=f=8000:g=1.5:w=2.0"])
     ++ ["equalizer=f=3500:g="
          ++ pyStr ((2 : ℚ) + ((voice_clarity_level : ℚ) - 3) * (1/2)) ++ ":w=1.0"])

/-- Multi-band compression block of 2.0 (lines 268-272), identical in content
to the 2.7 block down to the spaced `weights=1.1 1.0 0.9`, with the source's
own indentation. -/
def voc20_multiband_head : String :=
  "asplit=3[low][mid][high];\n            [low]lowpass=f=300,acompressor=threshold=-24dB:ratio=3.5:attack=50:release=1000[low_out];\n            [mid]highpass=f=300,lowpass=f=3000,acompressor=threshold=-22dB:ratio="

/-- The part of the 2.0 compression block following the interpolated mid-band
ratio. -/
def voc20_multiband_tail : String :=
  ":attack=30:release=800[mid_out];\n            [high]highpass=f=3000,acompressor=threshold=-20dB:ratio=2.0:attack=20:release=500[high_out];\n            [low_out][mid_out][high_out]amix=inputs=3:weights=1.1 1.0 0.9"

/-- The assembled 2.0 compression block (lines 268-272). -/
def voc20_multiband (ratio : ℚ) : String :=
  voc20_multiband_head ++ pyStr ratio ++ voc20_multiband_tail

/-- Adaptive de-esser (2.0 lines 276-281): both knobs are 0.6 above the
-15 dBFS high-frequency-energy threshold, 0.4 otherwise. -/
def voc20_deesser_stage (high_freq_energy : ℚ) : String :=
  "deesser=i=" ++ pyStr (if high_freq_energy > -15 then (3 : ℚ)/5 else 2/5)
    ++ ":m=" ++ pyStr (if high_freq_energy > -15 then (3 : ℚ)/5 else 2/5) ++ ":f=0.5"

/-- Stereo-field presets of 2.0 (lines 285-289). -/
def voc20_sound_field_presets : List (String × String) :=
  [("原声相", "stereo|c0=1.0*c0+0.0*c1|c1=0.0*c0+1.0*c1"),
   ("轻微扩展", "stereo|c0=0.8*c0+0.2*c1|c1=0.2*c0+0.8*c1"),
   ("广播立体声", "stereo|c0=0.7*c0+0.3*c1|c1=0.3*c0+0.7*c1,adelay=1ms|0ms")]

/-- Pan expression `sound_field_presets.get(sound_field, presets["轻微扩展"])`
(2.0 line 290): unknown names fall back to the mild-widening preset, so the
lookup never fails. -/
def voc20_pan_expr (sound_field : String) : String :=
  (voc20_sound_field_presets.lookup sound_field).getD
    "stereo|c0=0.8*c0+0.2*c1|c1=0.2*c0+0.8*c1"

/-- The `filters` list of `build_vocal_filter_chain` (2.0 lines 221-292). -/
def voc20_filters (scene_mode : String) (voice_clarity_level : ℤ) (deesser_on : Bool)
    (sound_field : String) (denoise_level : String) (a : Voc20Analysis) : List String :=
  [voc20_denoise_stage denoise_level a.noise_floor,
   voc20_eq_stage scene_mode voice_clarity_level,
   voc20_multiband (if a.dynamic_range > 20 then 3 else 2)]
  ++ (if deesser_on then [voc20_deesser_stage a.high_freq_energy] else [])
  ++ ["pan=" ++ voc20_pan_expr sound_field]

/-- `VocalProcessor.build_vocal_filter_chain` (2.0 lines 294-298):
`",".join([f for f in filters if f])` then removal of all newlines and
spaces. -/
def build_vocal_filter_chain (scene_mode : String) (voice_clarity_level : ℤ)
    (deesser_on : Bool) (sound_field : String) (denoise_level : String)
    (a : Voc20Analysis) : String :=
  pySanitize (joinComma
    ((voc20_filters scene_mode voice_clarity_level deesser_on sound_field
        denoise_level a).filter (fun f => f ≠ "")))

/-! ## Smart compressor v2.5 (`背景音乐动态压缩2.5智能压缩.py`) -/

/-- Discrete base compression ratio of `get_multi_band_params` (2.5 line
167); a Python int, rendered without a decimal point. -/
def sc25_base_ratio (dynamic_range : ℚ) : ℤ :=
  if dynamic_range < 15 then 2 else if dynamic_range < 20 then 3 else 4

/-- `SmartCompressor.get_multi_band_params` (2.5 lines 164-190): three
per-band compressors joined by labeled pins and mixed with the spaced weight
list `weights=1.2 1 0.8`.  Python renders `max`/`min` results of mixed
int/float arguments by value; `pyStr` stands in for that rendering (the
weights, the only part any claim touches, are literal text). -/
def sc25_get_multi_band_params (dynamic_range : ℚ) (attack release : ℤ)
    (eq_freq : ℤ) (eq_gain : ℤ) : String :=
  let br := sc25_base_ratio dynamic_range
  let low := "acompressor=threshold=-22dB:ratio=" ++ toString br
    ++ ":attack=" ++ toString attack ++ ":release=" ++ toString release
    ++ ":knee=12dB:makeup=4dB"
  let mid := "acompressor=threshold=-20dB:ratio=" ++ pyStr (pyMaxQ ((3 : ℚ)/2) ((br : ℚ) - 1/2))
    ++ ":attack=" ++ toString (pyMinI (attack + 20) 50)
    ++ ":release=" ++ toString (pyMinI (release + 300) 800)
    ++ ":knee=8dB:makeup=3dB,equalizer=f=" ++ toString eq_freq
    ++ ":g=" ++ toString eq_gain ++ ":w=1.0"
  let hi := "acompressor=threshold=-18dB:ratio=" ++ pyStr (pyMaxQ ((6 : ℚ)/5) ((br : ℚ) - 1))
    ++ ":attack=" ++ toString (pyMaxI (attack - 2) 3)
    ++ ":release=" ++ toString (pyMinI (release + 100) 500)
    ++ ":knee=6dB:makeup=2dB"
  "asplit=3[low][mid][high];[low]lowpass=250," ++ low
    ++ "[low_out];[mid]highpass=250,lowpass=2000," ++ mid
    ++ "[mid_out];[high]highpass=2000," ++ hi
    ++ "[high_out];[low_out][mid_out][high_out]amix=inputs=3:weights=1.2 1 0.8"

/-- The effective normalization target computed by
`SmartCompressor.get_adaptive_loudnorm` (2.5 lines 192-198): `TARGET_LUFS =
-16.0`, raised-input special case below `TARGET_LUFS - 10`. -/
def sc25_adaptive_target (input_lufs : ℚ) : ℚ :=
  if input_lufs < -16 - 10 then input_lufs + 8 else -16

/-- The loudnorm string returned by `get_adaptive_loudnorm` (2.5 line 198). -/
def sc25_get_adaptive_loudnorm (input_lufs : ℚ) : String :=
  "loudnorm=I=" ++ pyStr (sc25_adaptive_target input_lufs) ++ ":LRA=11:TP=-1.5"

/-- Stereo-field dict `pan_options` of `_process_audio` (2.5 lines 302-306). -/
def sc25_pan_options : List (String × String) :=
  [("宽声相（远离人声）", "stereo|c0=0.9*c0+0.1*c1|c1=0.1*c0+0.9*c1"),
   ("极宽声相（环绕感）", "stereo|c0=1.0*c0+0.0*c1|c1=0.0*c0+1.0*c1"),
   ("默认（轻微拉宽）", "stereo|c0=0.8*c0+0.2*c1|c1=0.2*c0+0.8*c1")]

/-- The `pre_filter_complex` string `BGMMusicMasteringThread._process_audio`
hands to the engine's preprocessing invocation (2.5 lines 296-314): optional
EQ, the compression filter, optional pan (a plain dict subscript
`pan_options[self.pan_type]`, `none` on an unknown non-empty name), joined
with commas and NOT stripped of whitespace. -/
def sc25_pre_filter_complex (eq_enabled : Bool) (eq_freq eq_gain : ℤ)
    (compress_filter : String) (pan_type : String) : Option String :=
  let pre := (if eq_enabled then
      ["equalizer=f=" ++ toString eq_freq ++ ":g=" ++ toString eq_gain ++ ":w=1.0"]
    else []) ++ [compress_filter]
  if pan_type = "" then some (joinComma pre)
  else match sc25_pan_options.lookup pan_type with
    | none => none
    | some p => some (joinComma (pre ++ ["pan=" ++ p]))

/-! ## Feature extraction under an explicit engine environment (part_000
lines 81-237).

Each engine invocation is modelled by its observable outcome: `Except Unit X`
is `error` when `subprocess.run` itself raised (engine missing, spawn
failure, timeout where uncaught) and `ok` with the values the line-oriented
parser extracted from the diagnostic stream — `none` for a field whose
marker line is absent or malformed.  The same `volumedetect` command is
issued by `get_volume_stats` for dynamics, voice characteristics and
perceived loudness; the environment is deterministic, so all three share one
outcome field. -/

/-- Fields the probe-pass parser (part_000 lines 119-140) can extract. -/
structure ProbeOut where
  losslessMarker : Bool
  bitrateField : Option ℤ
  sampleRateField : Option ℤ
  stereoMarker : Bool
  durationField : Option ℚ
  deriving DecidableEq, Repr

/-- Fields the `volumedetect` parser (part_000 lines 197-213) can extract. -/
structure VolumeOut where
  maxVol : Option ℚ
  minVol : Option ℚ
  meanVol : Option ℚ
  deriving DecidableEq, Repr

/-- One per-file analysis environment: input existence, extension, and the
outcome of each engine invocation. -/
structure AnalysisEnv where
  inputExists : Bool
  inputExt : String
  probe : Except Unit ProbeOut
  loudnessPass : Except Unit (Option ℚ)
  volumePass : Except Unit VolumeOut
  deriving Repr

/-- The two exceptions `analyze_audio_quality` can raise:
`FileNotFoundError` (line 85) and the re-raised `RuntimeError` when the probe
invocation itself throws (lines 115-116). -/
inductive AnalysisError
  | fileNotFound
  | analysisFailed
  deriving DecidableEq, Repr

/-- `measure_loudness` (part_000 lines 153-179): -20.0 when the invocation
throws or no `Input Integrated Loudness` line parses. -/
def measure_loudness (r : Except Unit (Option ℚ)) : ℚ :=
  match r with
  | .error _ => -20
  | .ok none => -20
  | .ok (some v) => v

/-- `get_volume_stats` (part_000 lines 181-214): `(max, min, mean)` with
per-field defaults `(-10, -60, -20)` on a thrown invocation or missing
lines. -/
def get_volume_stats (r : Except Unit VolumeOut) : ℚ × ℚ × ℚ :=
  match r with
  | .error _ => (-10, -60, -20)
  | .ok o => (o.maxVol.getD (-10), o.minVol.getD (-60), o.meanVol.getD (-20))

/-- `analyze_dynamics` (lines 216-219): `(|max - min|, min)`. -/
def analyze_dynamics (r : Except Unit VolumeOut) : ℚ × ℚ :=
  (|(get_volume_stats r).1 - (get_volume_stats r).2.1|, (get_volume_stats r).2.1)

/-- `detect_voice_characteristics` (lines 221-232): a coarse label from the
peak volume, returned with that peak. -/
def detect_voice_characteristics (r : Except Unit VolumeOut) : String × ℚ :=
  ((if (get_volume_stats r).1 > -6 then "male"
    else if (get_volume_stats r).1 < -12 then "female"
    else "unknown"), (get_volume_stats r).1)

/-- `calculate_perceived_loudness` (lines 234-237): the mean volume. -/
def calculate_perceived_loudness (r : Except Unit VolumeOut) : ℚ :=
  (get_volume_stats r).2.2

/-- `ProfessionalVocalProcessor.analyze_audio_quality` (part_000 lines
81-151): raises on a missing input, re-raises a thrown probe invocation,
and otherwise fills the analysis dict, leaving each field at its initializer
default when the corresponding probe field is absent.  The `channels` field
starts at 2 and is only ever re-assigned the same value 2 on a stereo
marker. -/
def analyze_audio_quality (env : AnalysisEnv) : Except AnalysisError ProfAnalysis :=
  if ¬ env.inputExists then .error .fileNotFound
  else
    match env.probe with
    | .error _ => .error .analysisFailed
    | .ok po =>
      let base : ProfAnalysis :=
        { format := env.inputExt
          is_lossless := po.losslessMarker
          bitrate := po.bitrateField.getD 192
          sample_rate := po.sampleRateField.getD 44100
          channels := 2
          duration := po.durationField.getD 0
          loudness := measure_loudness env.loudnessPass
          dynamic_range := (analyze_dynamics env.volumePass).1
          noise_floor := (analyze_dynamics env.volumePass).2
          gender := (detect_voice_characteristics env.volumePass).1
          high_freq_energy := (detect_voice_characteristics env.volumePass).2
          volume_level := calculate_perceived_loudness env.volumePass
          quality_score := 0 }
      .ok { base with quality_score := calculate_quality_score base }

/-- Whether an `Except` result is a success. -/
def exceptOk {ε α : Type} : Except ε α → Bool
  | .ok _ => true
  | .error _ => false

/-! ## Two-phase execution and cleanup (part_000 lines 635-720, 2.7 lines
177-216).

The filesystem is reduced to the two files a run owns; each engine
invocation is its return code, or `error` when `subprocess.run` raised
(spawn failure or expired timeout) — in Python such an exception propagates,
but still passes through the `finally` block that deletes the scratch WAV. -/

/-- Existence flags of the run's scratch WAV and final output. -/
structure FsState where
  tempExists : Bool
  outputExists : Bool
  deriving DecidableEq, Repr

/-- Outcomes of the two engine invocations and the artifacts they leave. -/
structure ExecEnv where
  preResult : Except Unit ℤ
  tempWritten : Bool
  tempSize : ℕ
  postResult : Except Unit ℤ
  outputWritten : Bool
  outputSize : ℕ
  deriving Repr

/-- The distinct exits of the per-file processing routine. -/
inductive ProcExit
  | ok
  | engineException
  | preFailed
  | intermediateInvalid
  | encodeFailed
  | outputInvalid
  deriving DecidableEq, Repr

/-- `ProfessionalProcessingThread._professional_process_safe` (part_000 lines
635-720): stale-file cleanup, preprocessing run, 1 KB intermediate floor,
encoding run, 8 KB output floor; every branch, normal or raising, runs the
`finally` that removes the scratch WAV. -/
def professional_process_safe (env : ExecEnv) (st : FsState) : ProcExit × FsState :=
  let _ := st
  let st₀ : FsState := { tempExists := false, outputExists := false }
  match env.preResult with
  | .error _ => (.engineException, { st₀ with tempExists := false })
  | .ok rc =>
    let st₁ : FsState := { st₀ with tempExists := env.tempWritten }
    if rc ≠ 0 then (.preFailed, { st₁ with tempExists := false })
    else if ¬ env.tempWritten ∨ env.tempSize < 1024 then
      (.intermediateInvalid, { st₁ with tempExists := false })
    else
      match env.postResult with
      | .error _ => (.engineException, { st₁ with tempExists := false })
      | .ok rc₂ =>
        let st₂ : FsState := { st₁ with outputExists := env.outputWritten }
        if rc₂ ≠ 0 then (.encodeFailed, { st₂ with tempExists := false })
        else if ¬ env.outputWritten ∨ env.outputSize < 8 * 1024 then
          (.outputInvalid, { st₂ with tempExists := false })
        else (.ok, { st₂ with tempExists := false })

/-- `ProcessingThread._process` of 2.7 (lines 177-216): no stale-file
cleanup and no intermediate floor, a 10 KB output floor, and the same
unconditional `finally` deletion of the scratch WAV. -/
def bg27_process (env : ExecEnv) (st : FsState) : ProcExit × FsState :=
  match env.preResult with
  | .error _ => (.engineException, { st with tempExists := false })
  | .ok rc =>
    let st₁ : FsState := { st with tempExists := env.tempWritten }
    if rc ≠ 0 then (.preFailed, { st₁ with tempExists := false })
    else
      match env.postResult with
      | .error _ => (.engineException, { st₁ with tempExists := false })
      | .ok rc₂ =>
        let st₂ : FsState := { st₁ with outputExists := env.outputWritten }
        if rc₂ ≠ 0 then (.encodeFailed, { st₂ with tempExists := false })
        else if ¬ env.outputWritten ∨ env.outputSize < 10 * 1024 then
          (.outputInvalid, { st₂ with tempExists := false })
        else (.ok, { st₂ with tempExists := false })

/-! ## Claim theorems -/

/-- C2.  For every analysis record the quality score equals the additive
formula of the specification (baseline 50, format/sample-rate/loudness/
dynamic-range/noise-floor bonuses, capped at 100), and the returned score
lies in [0, 100]. -/
theorem claim_C2_quality_score_formula (a : ProfAnalysis) :
    calculate_quality_score a = qualityScoreSpec a ∧
    0 ≤ calculate_quality_score a ∧ calculate_quality_score a ≤ 100 := by
  refine ⟨?_, ?_, ?_⟩
  · simp only [calculate_quality_score, qualityScoreSpec, formatBonus, sampleRateBonus,
      loudnessBonus, dynamicRangeBonus, noiseFloorBonus, sub_neg_eq_add]
  · have h₁ := formatBonus_nonneg a
    have h₂ := sampleRateBonus_nonneg a
    have h₃ := loudnessBonus_nonneg a
    have h₄ := dynamicRangeBonus_nonneg a.dynamic_range
    have h₅ := noiseFloorBonus_nonneg a
    exact le_pyMinQ (by linarith) (by norm_num)
  · exact pyMinQ_le_right _ _


/-- C9.  With every other field held fixed, a larger measured dynamic range
never yields a smaller quality score. -/
theorem claim_C9_score_monotone_in_dr (a : ProfAnalysis) (d₁ d₂ : ℚ) (h : d₁ ≤ d₂) :
    calculate_quality_score { a with dynamic_range := d₁ } ≤
      calculate_quality_score { a with dynamic_range := d₂ } := by
  unfold calculate_quality_score
  refine pyMinQ_mono_left ?_
  have e₁ : formatBonus { a with dynamic_range := d₁ } =
      formatBonus { a with dynamic_range := d₂ } := rfl
  have e₂ : sampleRateBonus { a with dynamic_range := d₁ } =
      sampleRateBonus { a with dynamic_range := d₂ } := rfl
  have e₃ : loudnessBonus { a with dynamic_range := d₁ } =
      loudnessBonus { a with dynamic_range := d₂ } := rfl
  have e₄ : noiseFloorBonus { a with dynamic_range := d₁ } =
      noiseFloorBonus { a with dynamic_range := d₂ } := rfl
  have hm := dynamicRangeBonus_mono h
  simp only [e₁, e₂, e₃, e₄]
  linarith

/-- C9 witness: raising the dynamic range from 10 dB to 16 dB at otherwise
default analysis values does not lower the score. -/
theorem claim_C9_witness :
    calculate_quality_score { ({} : ProfAnalysis) with dynamic_range := 10 } ≤
      calculate_quality_score { ({} : ProfAnalysis) with dynamic_range := 16 } :=
  claim_C9_score_monotone_in_dr {} 10 16 (by norm_num)

/-- C5.  Whatever the engine invocations return — exceptions included — and
whatever files they leave behind, both per-file two-phase routines exit with
the intermediate scratch WAV absent: the cleanup in their `finally` blocks is
unconditional. -/
theorem claim_C5_scratch_wav_deleted (env : ExecEnv) (st : FsState) :
    ((professional_process_safe env st).2).tempExists = false ∧
    ((bg27_process env st).2).tempExists = false := by
  obtain ⟨pre, tw, ts, post, ow, os⟩ := env
  constructor
  · cases pre with
    | error e => rfl
    | ok rc =>
      cases post with
      | error e => simp only [professional_process_safe]; split_ifs <;> rfl
      | ok rc₂ => simp only [professional_process_safe]; split_ifs <;> rfl
  · cases pre with
    | error e => rfl
    | ok rc =>
      cases post with
      | error e => simp only [bg27_process]; split_ifs <;> rfl
      | ok rc₂ => simp only [bg27_process]; split_ifs <;> rfl

/-- A concrete 2.7 analysis record for witnesses. -/
def bg27_ex : Bg27Analysis := ⟨false, ".mp3", 192, 12, -20⟩

/-- C1.  The parameter-decision / chain-building functions never raise on
caller-suppliable intents: the 2.7 stereo-field subscript — the one plain
dict lookup — succeeds for each of the three combo-box preset names, for
every toggle combination and every analysis record; and the fallback `.get`
defaults make the 2.0 and v3.3 builders total even on unrecognized
stereo-field or noise-tier names. -/
theorem claim_C1_decision_total :
    (∀ sf ∈ bg27_combo_items, ∀ (uc av : Bool) (a : Bg27Analysis),
      (build_processing_chain uc sf av a).isSome = true) ∧
    (∀ sf : String, voc20_sound_field_presets.lookup sf = none →
      voc20_pan_expr sf = "stereo|c0=0.8*c0+0.2*c1|c1=0.2*c0+0.8*c1") ∧
    (∀ nr : String, prof_nr_map.lookup (prof_nr_key nr) = none →
      prof_nr_stage nr = "highpass=f=150,lowpass=f=12000") := by
  refine ⟨?_, ?_, ?_⟩
  · intro sf hsf uc av a
    simp only [bg27_combo_items, List.mem_cons, List.not_mem_nil, or_false] at hsf
    rcases hsf with rfl | rfl | rfl <;> rfl
  · intro sf h
    simp [voc20_pan_expr, h]
  · intro nr h
    simp [prof_nr_stage, h]

/-- C1 witness: a caller-suppliable preset at a concrete analysis, and the
fallback equations at concrete unknown names. -/
theorem claim_C1_witness :
    (build_processing_chain false "原声相" false bg27_ex).isSome = true ∧
    voc20_pan_expr "未知声场" = "stereo|c0=0.8*c0+0.2*c1|c1=0.2*c0+0.8*c1" ∧
    prof_nr_stage "未知档位" = "highpass=f=150,lowpass=f=12000" :=
  ⟨claim_C1_decision_total.1 "原声相" (by simp [bg27_combo_items]) false false bg27_ex,
   claim_C1_decision_total.2.1 "未知声场" rfl,
   claim_C1_decision_total.2.2 "未知档位" rfl⟩

/-- C7 counterexample: at measured loudness -25 LUFS (below target but not
more than 10 dB below), the effective target is the unchanged -16 LUFS,
which exceeds the input loudness by 9 dB — more than the claimed +8 dB
bound. -/
theorem claim_C7_counterexample :
    sc25_adaptive_target (-25) = -16 ∧ ¬ sc25_adaptive_target (-25) ≤ -25 + 8 := by
  constructor
  · norm_num [sc25_adaptive_target]
  · norm_num [sc25_adaptive_target]

/-- C7 as amended: the piecewise formula is as claimed (more than 10 dB
below target → target `L + 8`, else the fixed -16), but the boost over the
input is bounded by 10 dB, not 8 dB — the bound 10 is attained at L = -26. -/
theorem claim_C7_quiet_input_protection (L : ℚ) :
    (L < -26 → sc25_adaptive_target L = L + 8) ∧
    (-26 ≤ L → sc25_adaptive_target L = -16) ∧
    sc25_adaptive_target L ≤ L + 10 := by
  unfold sc25_adaptive_target
  have h26 : (-16 : ℚ) - 10 = -26 := by norm_num
  rw [h26]
  refine ⟨fun h => if_pos h, fun h => if_neg (not_lt.mpr h), ?_⟩
  split_ifs with h
  · linarith
  · push_neg at h
    linarith

/-- C7 witness: both branches of the formula and the 10 dB bound at its
attaining point. -/
theorem claim_C7_witness :
    sc25_adaptive_target (-30) = -30 + 8 ∧ sc25_adaptive_target (-20) = -16 ∧
    sc25_adaptive_target (-26) ≤ -26 + 10 :=
  ⟨(claim_C7_quiet_input_protection (-30)).1 (by norm_num),
   (claim_C7_quiet_input_protection (-20)).2.1 (by norm_num),
   (claim_C7_quiet_input_protection (-26)).2.2⟩

/-- C8.  The loudness-normalization stage is built from the analysis record
of the original input and from constants only: in the v3.3 chain the
`measured_I`/`measured_LRA` arguments are exactly the extractor's
`loudness`/`dynamic_range` fields (with the fixed `measured_TP=-1.0` of the
analysis pass), and the 2.7 output parameters interpolate exactly the
extractor's measured loudness.  Both are pure functions of the analysis, so
nothing is re-measured after earlier stages. -/
theorem claim_C8_loudnorm_uses_original_measurement :
    (∀ (preset : String) (vc wl ra : ℤ) (nr : String) (a : ProfAnalysis),
      ("loudnorm=I=-16.0:LRA=8:TP=-1.0:measured_I=" ++ pyStr a.loudness
        ++ ":measured_LRA=" ++ pyStr a.dynamic_range ++ ":measured_TP=-1.0")
        ∈ build_professional_filters preset vc wl ra nr a) ∧
    (∀ b : Bg27Analysis,
      (bg27_get_output_params b).loudnorm
        = "loudnorm=I=-16.0:LRA=10:TP=-1.5:measured_I=" ++ pyStr b.loudness) := by
  constructor
  · intro preset vc wl ra nr a
    show prof_loudnorm_filter a ∈ _
    unfold build_professional_filters
    exact List.mem_append_right _ (List.mem_cons_self _ _)
  · intro b
    unfold bg27_get_output_params
    split_ifs <;> rfl

/-- C6 counterexample: in the v3.3 professional chain the noise-reduction
stage ignores the measured noise floor entirely — the full chains built for
analyses differing only in noise floor (-60 dBFS, a clean input the claim
says must be relaxed, vs -40 dBFS, a noisy input kept at base) are
identical — and the medium tier's stage pins its high-pass corner at 150 Hz,
outside the claimed fixed 80-100 Hz range. -/
theorem claim_C6_counterexample :
    build_professional_filter_chain "通用配音" 3 3 0 "medium"
        { ({} : ProfAnalysis) with noise_floor := -60 } =
      build_professional_filter_chain "通用配音" 3 3 0 "medium"
        { ({} : ProfAnalysis) with noise_floor := -40 } ∧
    prof_nr_stage "medium" = "highpass=f=150,lowpass=f=12000" :=
  ⟨rfl, rfl⟩

/-- C6 as amended: the claimed tiered noise-floor adjustment and the fixed
80 Hz high-pass corner describe the 2.0 vocal chain (base -20, -30, -40 per
tier, kept above -45 dBFS, relaxed by 10 below -55 dBFS, by 5 in between;
`highpass=f=80` appended to the stage for every tier); the v3.3 professional
chain instead selects a fixed per-tier highpass/lowpass pair
(100 Hz/14 kHz, 150 Hz/12 kHz, 200 Hz/10 kHz) independent of the measured
noise floor. -/
theorem claim_C6_noise_tier_adjustment :
    (∀ (dl : String) (nf : ℚ),
      (nf > -45 → voc20_final_dn dl nf = voc20_base_dn dl) ∧
      (nf < -55 → voc20_final_dn dl nf = voc20_base_dn dl + 10) ∧
      (nf ≤ -45 → -55 ≤ nf → voc20_final_dn dl nf = voc20_base_dn dl + 5) ∧
      voc20_denoise_stage dl nf =
        "afftdn=nf=" ++ toString (voc20_final_dn dl nf) ++ ":nt=w,highpass=f=80") ∧
    (∀ (preset : String) (vc wl ra : ℤ) (nr : String) (a : ProfAnalysis) (x : ℚ),
      build_professional_filter_chain preset vc wl ra nr { a with noise_floor := x } =
        build_professional_filter_chain preset vc wl ra nr a) ∧
    (prof_nr_stage "low" = "highpass=f=100,lowpass=f=14000" ∧
     prof_nr_stage "medium" = "highpass=f=150,lowpass=f=12000" ∧
     prof_nr_stage "high" = "highpass=f=200,lowpass=f=10000") := by
  refine ⟨?_, ?_, rfl, rfl, rfl⟩
  · intro dl nf
    refine ⟨?_, ?_, ?_, rfl⟩
    · intro h
      simp only [voc20_final_dn, if_pos h]
    · intro h
      simp only [voc20_final_dn]
      rw [if_neg (by linarith), if_pos h]
    · intro h₁ h₂
      simp only [voc20_final_dn]
      rw [if_neg (not_lt.mpr h₁), if_neg (not_lt.mpr h₂)]
  · intro preset vc wl ra nr a x
    rfl

/-- C6 witness: the three noise-floor branches at the `mid` tier at concrete
floors, and noise-floor independence of the professional chain at a concrete
analysis. -/
theorem claim_C6_witness :
    voc20_final_dn "mid" (-40) = voc20_base_dn "mid" ∧
    voc20_final_dn "mid" (-60) = voc20_base_dn "mid" + 10 ∧
    voc20_final_dn "mid" (-50) = voc20_base_dn "mid" + 5 ∧
    build_professional_filter_chain "通用配音" 3 3 0 "low"
        { ({} : ProfAnalysis) with noise_floor := -33 } =
      build_professional_filter_chain "通用配音" 3 3 0 "low" {} :=
  ⟨((claim_C6_noise_tier_adjustment.1 "mid" (-40)).1 (by norm_num)),
   ((claim_C6_noise_tier_adjustment.1 "mid" (-60)).2.1 (by norm_num)),
   ((claim_C6_noise_tier_adjustment.1 "mid" (-50)).2.2.1 (by norm_num) (by norm_num)),
   claim_C6_noise_tier_adjustment.2.1 "通用配音" 3 3 0 "low" {} (-33)⟩

/-- C3 counterexample: the 2.5 smart-compression pre-filter string handed to
the engine's preprocessing invocation is joined without the whitespace
stripping step and contains space characters (the spaced `amix` weight list
`weights=1.2 1 0.8`), already at the caller's default intent (EQ off,
default pan preset, multi-band parameters from a 12 dB dynamic-range
analysis). -/
theorem claim_C3_counterexample :
    ' ' ∈ ((sc25_pre_filter_complex false 2000 (-6)
      (sc25_get_multi_band_params 12 30 500 2000 (-6)) "默认（轻微拉宽）").getD "").data := by
  apply mem_str_append_left
  apply mem_str_append_left
  apply mem_str_append_right
  decide

/-- C3 as amended: the serialized chains of the three builders that end in
the `.replace("\n", "").replace(" ", "")` sanitation step (v3.3
professional, 2.0 vocal, 2.7 background) contain no space and no newline
character for any UserIntent/FeatureSet pair; the 2.5 pre-filter string is
exempt because it omits the stripping. -/
theorem claim_C3_serialized_whitespace_free :
    (∀ (preset : String) (vc wl ra : ℤ) (nr : String) (a : ProfAnalysis),
      ∀ c ∈ (build_professional_filter_chain preset vc wl ra nr a).data,
        c ≠ ' ' ∧ c ≠ '\n') ∧
    (∀ (sm : String) (vcl : ℤ) (de : Bool) (sf dl : String) (a : Voc20Analysis),
      ∀ c ∈ (build_vocal_filter_chain sm vcl de sf dl a).data, c ≠ ' ' ∧ c ≠ '\n') ∧
    (∀ (uc : Bool) (sf : String) (av : Bool) (a : Bg27Analysis) (s : String),
      build_processing_chain uc sf av a = some s →
      ∀ c ∈ s.data, c ≠ ' ' ∧ c ≠ '\n') := by
  refine ⟨?_, ?_, ?_⟩
  · intro preset vc wl ra nr a
    exact pySanitize_no_ws _
  · intro sm vcl de sf dl a
    exact pySanitize_no_ws _
  · intro uc sf av a s h
    unfold build_processing_chain at h
    cases hl : bg27_sound_field_presets.lookup sf with
    | none => rw [hl] at h; exact absurd h (by simp)
    | some pan =>
      rw [hl] at h
      obtain rfl : pySanitize (joinComma (bg27_filters uc av a ++ ["pan=" ++ pan])) = s :=
        Option.some.inj h
      exact pySanitize_no_ws _

/-- C3 witness: a concrete character of a concretely built 2.7 chain,
checked against both banned characters via the theorem. -/
theorem claim_C3_witness : ('a' : Char) ≠ ' ' ∧ ('a' : Char) ≠ '\n' :=
  claim_C3_serialized_whitespace_free.2.2 false "原声相" true bg27_ex
    ((build_processing_chain false "原声相" true bg27_ex).getD "") rfl 'a' (by decide)

/-- The fused token the final space-stripping produces from the spaced
band-mix weight list. -/
def fusedWeights : String := "amix=inputs=3:weights=1.11.00.9"

/-- The band-mix weight list as written in the source blocks. -/
def spacedWeights : String := "weights=1.1 1.0 0.9"

theorem str_append_ne_empty_right (s₁ s₂ : String) (h : s₂.data ≠ []) : s₁ ++ s₂ ≠ "" := by
  intro he
  have hd := congrArg String.data he
  rw [String.data_append] at hd
  exact h (List.append_eq_nil.mp hd).2

theorem voc20_multiband_ne (r : ℚ) : voc20_multiband r ≠ "" :=
  str_append_ne_empty_right _ _ (by decide)

set_option maxRecDepth 16384 in
theorem multiband_token_27 (r : ℚ) :
    fusedWeights.data <:+: (pySanitize (bg27_multiband r)).data :=
  List.IsInfix.trans (by decide)
    (sanitize_suffix_inf (bg27_multiband_head ++ pyStr r) bg27_multiband_tail)

set_option maxRecDepth 16384 in
theorem multiband_token_20 (r : ℚ) :
    fusedWeights.data <:+: (pySanitize (voc20_multiband r)).data :=
  List.IsInfix.trans (by decide)
    (sanitize_suffix_inf (voc20_multiband_head ++ pyStr r) voc20_multiband_tail)

theorem no_space_no_spaced_token {s : String}
    (hs : ∀ c ∈ s.data, c ≠ ' ' ∧ c ≠ '\n') : ¬ spacedWeights.data <:+: s.data :=
  fun h => ((hs ' ' (h.subset (by decide))).1 rfl)

/-- C10.  With compression enabled, the spaced band-mix weight list
`weights=1.1 1.0 0.9` of the multi-band block survives the final
space-stripping only as the fused token `weights=1.11.00.9`: the serialized
chain contains the fused token as a contiguous block, and no longer contains
the spaced list — the three distinct weight values are not preserved in the
serialized form.  This holds for every caller-suppliable 2.7 intent and for
every 2.0 intent. -/
theorem claim_C10_weights_fused :
    (∀ (sf : String) (av : Bool) (a : Bg27Analysis), sf ∈ bg27_combo_items →
      fusedWeights.data <:+: ((build_processing_chain true sf av a).getD "").data ∧
      ¬ spacedWeights.data <:+: ((build_processing_chain true sf av a).getD "").data) ∧
    (∀ (sm : String) (vcl : ℤ) (de : Bool) (sf dl : String) (a : Voc20Analysis),
      fusedWeights.data <:+: (build_vocal_filter_chain sm vcl de sf dl a).data ∧
      ¬ spacedWeights.data <:+: (build_vocal_filter_chain sm vcl de sf dl a).data) := by
  constructor
  · intro sf av a hsf
    simp only [bg27_combo_items, List.mem_cons, List.not_mem_nil, or_false] at hsf
    rcases hsf with rfl | rfl | rfl <;>
      exact ⟨List.IsInfix.trans (multiband_token_27 _)
          (sanitize_join_inf (List.mem_append_left _
            (List.mem_append_right _ (List.mem_cons_self _ _)))),
        no_space_no_spaced_token (pySanitize_no_ws _)⟩
  · intro sm vcl de sf dl a
    have hmem : voc20_multiband (if a.dynamic_range > 20 then (3 : ℚ) else 2)
        ∈ (voc20_filters sm vcl de sf dl a).filter (fun f => f ≠ "") := by
      refine List.mem_filter.mpr ⟨?_, ?_⟩
      · exact List.mem_append_left _ (List.mem_append_left _
          (List.mem_cons_of_mem _ (List.mem_cons_of_mem _ (List.mem_cons_self _ _))))
      · simp only [decide_eq_true_eq]
        exact voc20_multiband_ne _
    exact ⟨List.IsInfix.trans (multiband_token_20 _) (sanitize_join_inf hmem),
      no_space_no_spaced_token (pySanitize_no_ws _)⟩

/-- C10 witness: the fused token is present and the spaced list absent in
the chain built for a concrete caller-suppliable intent and analysis. -/
theorem claim_C10_witness :
    fusedWeights.data <:+: ((build_processing_chain true "原声相" false bg27_ex).getD "").data ∧
    ¬ spacedWeights.data <:+: ((build_processing_chain true "原声相" false bg27_ex).getD "").data :=
  claim_C10_weights_fused.1 "原声相" false bg27_ex (by decide)

/-- The analysis environment of the C4 counterexample: the input file
exists, the container probe runs but yields no parseable fields, the
loudness pass parses nothing, and the `volumedetect` invocation itself
fails. -/
def c4Env : AnalysisEnv :=
  { inputExists := true
    inputExt := ".mp3"
    probe := .ok ⟨false, none, none, false, none⟩
    loudnessPass := .ok none
    volumePass := .error () }

/-- C4 counterexample: when the volume-measurement pass fails, extraction
still returns a record, but its dynamic-range field is 50 dB (the spread of
the `volumedetect` parser defaults max -10 / min -60), not the claimed
documented fallback of 12 dB — the initializer 12.0 is unconditionally
overwritten. -/
theorem claim_C4_counterexample :
    ((analyze_audio_quality c4Env).toOption.getD {}).dynamic_range = 50 ∧
    (50 : ℚ) ≠ 12 := by
  constructor
  · show |(-10 : ℚ) - (-60)| = 50
    have h : ((-10 : ℚ)) - (-60) = 50 := by norm_num
    rw [h]
    exact abs_of_nonneg (by norm_num)
  · norm_num

/-- C4 as amended: extraction fails exactly when the input file is missing
or the container-probe invocation itself raises; in every other environment
it returns a complete record in which a volume pass that failed (invocation
raised) or was unparseable (ran but produced no max/min marker lines) leaves
dynamic range 50 dB and noise floor -60 dBFS (from the volume defaults -10
and -60, not the claimed 12 dB), a failed or unparseable loudness pass
leaves -20 LUFS, an unparsed bitrate leaves 192, an unparsed sample rate
leaves 44100, and the channel count is always 2. -/
theorem claim_C4_extraction_defaults (env : AnalysisEnv) :
    (exceptOk (analyze_audio_quality env) = (env.inputExists && exceptOk env.probe)) ∧
    (∀ a : ProfAnalysis, analyze_audio_quality env = .ok a →
      (env.volumePass = .error () → a.dynamic_range = 50 ∧ a.noise_floor = -60) ∧
      (∀ vo : VolumeOut, env.volumePass = .ok vo → vo.maxVol = none → vo.minVol = none →
        a.dynamic_range = 50 ∧ a.noise_floor = -60) ∧
      (env.loudnessPass = .error () → a.loudness = -20) ∧
      (env.loudnessPass = .ok none → a.loudness = -20) ∧
      (∀ po : ProbeOut, env.probe = .ok po →
        (po.bitrateField = none → a.bitrate = 192) ∧
        (po.sampleRateField = none → a.sample_rate = 44100)) ∧
      a.channels = 2) := by
  obtain ⟨ex, ext, probe, lp, vp⟩ := env
  constructor
  · cases ex
    · rfl
    · cases probe with
      | error e => rfl
      | ok po => rfl
  · intro a ha
    cases ex with
    | false => exact absurd ha (by simp [analyze_audio_quality])
    | true =>
      cases probe with
      | error e => exact absurd ha (by simp [analyze_audio_quality])
      | ok po =>
        injection ha with ha'
        subst ha'
        refine ⟨?_, ?_, ?_, ?_, ?_, rfl⟩
        · intro hv
          subst hv
          constructor
          · show |(-10 : ℚ) - (-60)| = 50
            have h : ((-10 : ℚ)) - (-60) = 50 := by norm_num
            rw [h]
            exact abs_of_nonneg (by norm_num)
          · rfl
        · intro vo hv hmax hmin
          subst hv
          constructor
          · show |vo.maxVol.getD (-10) - vo.minVol.getD (-60)| = 50
            rw [hmax, hmin]
            show |(-10 : ℚ) - (-60)| = 50
            have h : ((-10 : ℚ)) - (-60) = 50 := by norm_num
            rw [h]
            exact abs_of_nonneg (by norm_num)
          · show vo.minVol.getD (-60) = -60
            rw [hmin]
            rfl
        · intro hl
          subst hl
          rfl
        · intro hl
          subst hl
          rfl
        · intro po' hpo
          injection hpo with hpo'
          subst hpo'
          constructor
          · intro hb
            show po.bitrateField.getD 192 = 192
            rw [hb]
            rfl
          · intro hs
            show po.sampleRateField.getD 44100 = 44100
            rw [hs]
            rfl

/-- The unparseable-volume variant of the C4 environment: the `volumedetect`
invocation returns, but its diagnostic stream holds no max/min/mean marker
lines. -/
def c4EnvUnparsed : AnalysisEnv :=
  { inputExists := true
    inputExt := ".mp3"
    probe := .ok ⟨false, none, none, false, none⟩
    loudnessPass := .error ()
    volumePass := .ok ⟨none, none, none⟩ }

/-- C4 witness: the amended statement evaluated at two concrete
environments — one whose volume invocation raised and one whose output was
unparseable — extraction succeeds and every fallback field has the value the
amended claim documents. -/
theorem claim_C4_witness :
    exceptOk (analyze_audio_quality c4Env) = (c4Env.inputExists && exceptOk c4Env.probe) ∧
    ((analyze_audio_quality c4Env).toOption.getD {}).dynamic_range = 50 ∧
    ((analyze_audio_quality c4Env).toOption.getD {}).noise_floor = -60 ∧
    ((analyze_audio_quality c4Env).toOption.getD {}).loudness = -20 ∧
    ((analyze_audio_quality c4Env).toOption.getD {}).bitrate = 192 ∧
    ((analyze_audio_quality c4Env).toOption.getD {}).sample_rate = 44100 ∧
    ((analyze_audio_quality c4Env).toOption.getD {}).channels = 2 ∧
    ((analyze_audio_quality c4EnvUnparsed).toOption.getD {}).dynamic_range = 50 ∧
    ((analyze_audio_quality c4EnvUnparsed).toOption.getD {}).noise_floor = -60 ∧
    ((analyze_audio_quality c4EnvUnparsed).toOption.getD {}).loudness = -20 := by
  have h := claim_C4_extraction_defaults c4Env
  have hok : analyze_audio_quality c4Env =
      .ok ((analyze_audio_quality c4Env).toOption.getD {}) := rfl
  have h₂ := h.2 _ hok
  have g := claim_C4_extraction_defaults c4EnvUnparsed
  have gok : analyze_audio_quality c4EnvUnparsed =
      .ok ((analyze_audio_quality c4EnvUnparsed).toOption.getD {}) := rfl
  have g₂ := g.2 _ gok
  exact ⟨h.1, (h₂.1 rfl).1, (h₂.1 rfl).2, h₂.2.2.2.1 rfl,
    (h₂.2.2.2.2.1 ⟨false, none, none, false, none⟩ rfl).1 rfl,
    (h₂.2.2.2.2.1 ⟨false, none, none, false, none⟩ rfl).2 rfl, h₂.2.2.2.2.2,
    (g₂.2.1 ⟨none, none, none⟩ rfl rfl rfl).1,
    (g₂.2.1 ⟨none, none, none⟩ rfl rfl rfl).2, g₂.2.2.1 rfl⟩
